import Mathlib

/-!
Verification of the GNSS/IMU synchronization core against its source.

Shallow embedding conventions:
- Bytes are `Nat` values (< 256) and byte buffers are `List Nat`.
- Python floats that are only moved around (never computed with) are kept as
  their IEEE-754 bit patterns, decoded little-endian to a `Nat`; equality of a
  decoded float with the encoded value is bit-pattern equality.
- Timestamps, where arithmetic and comparisons matter, are modelled by `Ts`:
  either a rational value or the NaN sentinel, with the Python comparison
  semantics (every comparison involving NaN is false, NaN propagates through
  subtraction and absolute value).
- A Python function that can return a value, return None, or raise is modelled
  by `PyResult`; one that can only return or raise by `Except String`.
-/

set_option maxRecDepth 16384

/-- Timestamp value: a rational number or the IEEE-754 NaN sentinel. -/
inductive Ts where
  | nan : Ts
  | q : ℚ → Ts
deriving DecidableEq

/-- Python `<` on floats: any comparison involving NaN is false. -/
def tsLt : Ts → Ts → Bool
  | Ts.q a, Ts.q b => decide (a < b)
  | _, _ => false

/-- Python float subtraction: NaN propagates. -/
def tsSub : Ts → Ts → Ts
  | Ts.q a, Ts.q b => Ts.q (a - b)
  | _, _ => Ts.nan

/-- Python `abs(t) > c`: false when `t` is NaN. -/
def tsAbsGt : Ts → ℚ → Bool
  | Ts.q a, c => decide (c < |a|)
  | Ts.nan, _ => false

/-- Rational value of a timestamp, defaulting NaN to 0 (used only in
statements guarded by a no-NaN hypothesis). -/
def tsv : Ts → ℚ
  | Ts.nan => 0
  | Ts.q a => a

/-- Result of a Python call that may return a value, return None, or raise. -/
inductive PyResult (α : Type) where
  | ok : α → PyResult α
  | nores : PyResult α
  | exn : String → PyResult α
deriving DecidableEq

/-- Truthiness of a decode result (Python `if gnss:`). -/
def PyResult.isOk {α : Type} : PyResult α → Bool
  | .ok _ => true
  | _ => false

/-- List of emitted records of a decode result (empty unless `ok`). -/
def PyResult.toList {α : Type} : PyResult α → List α
  | .ok a => [a]
  | _ => []

/-- Python slice `data[a:b]` on a byte buffer. -/
def byteSlice (data : List ℕ) (a b : ℕ) : List ℕ := (data.drop a).take (b - a)

/-- Checksum from hex_parser.py: sum of the bytes, low 8 bits. -/
def checksum (data : List ℕ) : ℕ := data.sum % 256

/-- Little-endian unsigned 16-bit value at byte offset i. -/
def le16 (data : List ℕ) (i : ℕ) : ℕ := data.getD i 0 + 256 * data.getD (i + 1) 0

/-- Little-endian unsigned 32-bit value at byte offset i. -/
def le32 (data : List ℕ) (i : ℕ) : ℕ := le16 data i + 65536 * le16 data (i + 2)

/-- Little-endian 64-bit pattern at byte offset i. -/
def le64 (data : List ℕ) (i : ℕ) : ℕ := le32 data i + 4294967296 * le32 data (i + 4)

/-- Signed 8-bit value of a byte (struct format b). -/
def int8 (b : ℕ) : ℤ := if b < 128 then (b : ℤ) else (b : ℤ) - 256

/-- Signed 32-bit value of a 32-bit pattern (struct format i, little-endian). -/
def int32 (v : ℕ) : ℤ := if v < 2147483648 then (v : ℤ) else (v : ℤ) - 4294967296

/-- GNSS position record, mirroring data_types.GNSSData. The float channels
hold bit patterns; `timestamp` is a required constructor argument with no
default, exactly as in the dataclass. -/
structure GNSSData where
  timestamp : Ts
  year : ℕ
  month : ℕ
  day : ℕ
  hour : ℕ
  minute : ℕ
  microsecond : ℕ
  longitude : ℕ
  latitude : ℕ
  altitude : ℕ
  velocity_x : ℕ
  velocity_y : ℕ
  velocity_z : ℕ
  valid : Bool
deriving DecidableEq

/-- Inertial record, mirroring data_types.IMUData; gyro and accel channels are
bit patterns, `timestamp` is a required constructor argument. -/
structure IMUData where
  timestamp : Ts
  year : ℕ
  month : ℕ
  day : ℕ
  hour : ℕ
  minute : ℕ
  microsecond : ℕ
  gyro_x : ℕ
  gyro_y : ℕ
  gyro_z : ℕ
  accel_x : ℕ
  accel_y : ℕ
  accel_z : ℕ
deriving DecidableEq

/-- The twelve values extracted by HexFrameParser.parse_gnss_frame before it
reaches the GNSSData constructor call. -/
structure GNSSFields where
  year : ℕ
  month : ℕ
  day : ℕ
  hour : ℕ
  minute : ℕ
  microsecond : ℕ
  longitude : ℕ
  latitude : ℕ
  altitude : ℕ
  velocity_x : ℕ
  velocity_y : ℕ
  velocity_z : ℕ
deriving DecidableEq

/-- The twelve values extracted by HexFrameParser.parse_ins_frame before it
reaches the IMUData constructor call. -/
structure IMUFields where
  year : ℕ
  month : ℕ
  day : ℕ
  hour : ℕ
  minute : ℕ
  microsecond : ℕ
  gyro_x : ℕ
  gyro_y : ℕ
  gyro_z : ℕ
  accel_x : ℕ
  accel_y : ℕ
  accel_z : ℕ
deriving DecidableEq

/-- Message of the TypeError raised wherever a GNSSData is constructed
without the required timestamp argument (data_types.py line 12 has no
default): the decoder call at hex_parser.py line 70 and the interpolation
output loop at gnss_interpolation.py line 117 both omit it. -/
def gnssCtorErr : String := "TypeError: GNSSData missing required argument timestamp"

/-- Message of the TypeError raised at hex_parser.py line 131 for the same
reason (IMUData requires a timestamp argument). -/
def imuCtorErr : String := "TypeError: IMUData missing required argument timestamp"

/-- Structural decode of a Position frame, translated from
HexFrameParser.parse_gnss_frame (hex_parser.py lines 26-68): length, marker
0x99 0x66, length byte 0x2E, checksum of bytes 3..44 against byte 45, and
year range check, then the little-endian field extraction. The source writes
each guard negated with an early None return; the nested positive conditions
here are the same tests. Field reads are pure, so grouping them after the
year check is observationally identical to the source order. -/
def parse_gnss_core (data : List ℕ) : Option GNSSFields :=
  if 46 ≤ data.length then
    if data.take 2 = [0x99, 0x66] then
      if data.getD 2 0 = 0x2E then
        if checksum (byteSlice data 3 45) = data.getD 45 0 then
          if 2000 ≤ le16 data 3 ∧ le16 data 3 ≤ 2100 then
            some ⟨le16 data 3, data.getD 5 0, data.getD 6 0, data.getD 7 0,
              data.getD 8 0, le32 data 9, le64 data 13, le64 data 21,
              le32 data 29, le32 data 33, le32 data 37, le32 data 41⟩
          else none
        else none
      else none
    else none
  else none

/-- HexFrameParser.parse_gnss_frame as the source executes: every structural
failure returns None, and a frame that passes every check reaches the
GNSSData constructor call, which raises TypeError because the required
timestamp argument is not passed. -/
def parse_gnss_frame (data : List ℕ) : PyResult GNSSData :=
  match parse_gnss_core data with
  | none => .nores
  | some _ => .exn gnssCtorErr

/-- Record built from extracted Position fields; the source passes no valid
argument either, so the dataclass default True is used there. The timestamp
argument is the one the source fails to pass. -/
def fieldsToGnss (f : GNSSFields) (t : Ts) : GNSSData :=
  ⟨t, f.year, f.month, f.day, f.hour, f.minute, f.microsecond, f.longitude,
    f.latitude, f.altitude, f.velocity_x, f.velocity_y, f.velocity_z, true⟩

/-- HexFrameParser.parse_gnss_frame with the constructor slip repaired by
passing a placeholder timestamp (its value plays no role in any statement
below); used to express the scan logic the slip masks. -/
def parse_gnss_frame_ok (data : List ℕ) : PyResult GNSSData :=
  match parse_gnss_core data with
  | none => .nores
  | some f => .ok (fieldsToGnss f Ts.nan)

/-- Structural decode of the Inertial half of a 98-byte window, translated
from HexFrameParser.parse_ins_frame (hex_parser.py lines 86-129): length at
least 98, marker 0x55 0xAA at bytes 46-47, length byte 0x34 at byte 48,
checksum of bytes 49..96 against byte 97; the calendar fields are reused from
the GNSS half (bytes 3..12) and there is no year range check. -/
def parse_ins_core (data : List ℕ) : Option IMUFields :=
  if 98 ≤ data.length then
    if byteSlice data 46 48 = [0x55, 0xaa] then
      if data.getD 48 0 = 0x34 then
        if checksum (byteSlice data 49 97) = data.getD 97 0 then
          some ⟨le16 data 3, data.getD 5 0, data.getD 6 0, data.getD 7 0,
            data.getD 8 0, le32 data 9, le64 data 49, le64 data 57,
            le64 data 65, le64 data 73, le64 data 81, le64 data 89⟩
        else none
      else none
    else none
  else none

/-- HexFrameParser.parse_ins_frame as the source executes: structural failure
returns None; success reaches the IMUData constructor, which raises TypeError
for the missing timestamp argument. -/
def parse_ins_frame (data : List ℕ) : PyResult IMUData :=
  match parse_ins_core data with
  | none => .nores
  | some _ => .exn imuCtorErr

/-- Record built from extracted Inertial fields with a placeholder timestamp. -/
def fieldsToImu (f : IMUFields) (t : Ts) : IMUData :=
  ⟨t, f.year, f.month, f.day, f.hour, f.minute, f.microsecond, f.gyro_x,
    f.gyro_y, f.gyro_z, f.accel_x, f.accel_y, f.accel_z⟩

/-- HexFrameParser.parse_ins_frame with the constructor slip repaired. -/
def parse_ins_frame_ok (data : List ℕ) : PyResult IMUData :=
  match parse_ins_core data with
  | none => .nores
  | some f => .ok (fieldsToImu f Ts.nan)

/-- Scan loop of HexFrameParser.parse_file (hex_parser.py lines 165-189),
parametrized by the two frame decoders and written with fuel (the source
while loop strictly increases the offset, so fuel equal to the buffer length
plus one never runs out). Each decoder call that raises aborts the whole
scan; each record that decodes is appended individually; the offset advances
by 98 when both halves decode and by 1 otherwise; the loop stops when fewer
than 98 bytes remain. -/
def parse_file_go (dg : List ℕ → PyResult GNSSData) (di : List ℕ → PyResult IMUData)
    (bin : List ℕ) : ℕ → ℕ → Except String (List GNSSData × List IMUData)
  | 0, _ => .ok ([], [])
  | fuel + 1, offset =>
    if offset < bin.length then
      if bin.length < offset + 98 then .ok ([], [])
      else
        let frame := byteSlice bin offset (offset + 98)
        match dg frame with
        | .exn e => .error e
        | g =>
          match di frame with
          | .exn e => .error e
          | i =>
            match parse_file_go dg di bin fuel
                (offset + (if g.isOk && i.isOk then 98 else 1)) with
            | .error e => .error e
            | .ok (gs, ms) => .ok (g.toList ++ gs, i.toList ++ ms)
    else .ok ([], [])

/-- HexFrameParser.parse_file on an already hex-decoded byte buffer (reading
the file and decoding ASCII hex happen upstream and are not modelled). -/
def parse_file (bin : List ℕ) : Except String (List GNSSData × List IMUData) :=
  parse_file_go parse_gnss_frame parse_ins_frame bin (bin.length + 1) 0

/-- The same scan with the record constructor slip repaired in both decoders. -/
def parse_file_fixed (bin : List ℕ) : Except String (List GNSSData × List IMUData) :=
  parse_file_go parse_gnss_frame_ok parse_ins_frame_ok bin (bin.length + 1) 0

/-- Fused navigation record, mirroring data_types.NavigationResult; the
eighteen float channels are bit patterns, nav_status and frame_index are the
signed values struct.unpack produces, timestamp is set to 0.0 by the parser. -/
structure NavigationResult where
  timestamp : ℚ
  year : ℕ
  month : ℕ
  day : ℕ
  hour : ℕ
  minute : ℕ
  microsecond : ℕ
  nav_status : ℤ
  combined_longitude : ℕ
  combined_latitude : ℕ
  combined_altitude : ℕ
  combined_vel_x : ℕ
  combined_vel_y : ℕ
  combined_vel_z : ℕ
  combined_roll : ℕ
  combined_heading : ℕ
  combined_pitch : ℕ
  ins_longitude : ℕ
  ins_latitude : ℕ
  ins_altitude : ℕ
  ins_vel_x : ℕ
  ins_vel_y : ℕ
  ins_vel_z : ℕ
  ins_roll : ℕ
  ins_heading : ℕ
  ins_pitch : ℕ
  frame_index : ℤ
deriving DecidableEq

/-- Structural decode of a 160-byte fused-result frame, translated from
ResultParser.parse_frame (result_parser.py lines 16-124): length check, field
extraction, then a year range check that returns None when it fails; an
out-of-enum nav_status only prints a warning and the record is still
returned. The source writes the year guard negated with an early None. -/
def parse_result_frame (data : List ℕ) : Option NavigationResult :=
  if 160 ≤ data.length then
    if 2000 ≤ le16 data 0 ∧ le16 data 0 ≤ 2100 then
      some ⟨0, le16 data 0, data.getD 2 0, data.getD 3 0, data.getD 4 0,
        data.getD 5 0, le32 data 6, int8 (data.getD 10 0), le64 data 11,
        le64 data 19, le64 data 27, le64 data 35, le64 data 43, le64 data 51,
        le64 data 59, le64 data 67, le64 data 75, le64 data 83, le64 data 91,
        le64 data 99, le64 data 107, le64 data 115, le64 data 123,
        le64 data 131, le64 data 139, le64 data 147, int32 (le32 data 155)⟩
    else none
  else none

/-- Gregorian leap-year rule, as the datetime module implements it. -/
def isLeapYear (y : ℕ) : Bool := y % 4 == 0 && (y % 100 != 0 || y % 400 == 0)

/-- Number of days in a month, as the datetime module implements it. -/
def daysInMonth (y m : ℕ) : ℕ :=
  if m = 2 then (if isLeapYear y then 29 else 28)
  else if m = 4 ∨ m = 6 ∨ m = 9 ∨ m = 11 then 30 else 31

/-- Argument validation of the datetime constructor call
datetime(year, month, day, hour, minute, 0): MINYEAR 1 to MAXYEAR 9999,
month 1..12, day 1..days-in-month, hour 0..23, minute 0..59 (the fields are
naturals, so the lower bounds on hour and minute are automatic). -/
def pyDateOk (y m d h mi : ℕ) : Bool :=
  decide (1 ≤ y ∧ y ≤ 9999 ∧ 1 ≤ m ∧ m ≤ 12 ∧ 1 ≤ d ∧ d ≤ daysInMonth y m ∧
    h ≤ 23 ∧ mi ≤ 59)

/-- Days from 1970-01-01 to the given civil date (standard civil-from-days
inverse; exact for every year the datetime constructor accepts). -/
def days_from_civil (y m d : ℕ) : ℤ :=
  let yy : ℤ := if m ≤ 2 then (y : ℤ) - 1 else (y : ℤ)
  let era : ℤ := yy / 400
  let yoe : ℤ := yy - era * 400
  let mp : ℤ := ((m : ℤ) + 9) % 12
  let doy : ℤ := (153 * mp + 2) / 5 + (d : ℤ) - 1
  let doe : ℤ := yoe * 365 + yoe / 4 - yoe / 100 + doy
  era * 146097 + doe - 719468

/-- Message of the ValueError the datetime constructor raises for an
out-of-range field. -/
def valueErrDate : String := "ValueError: argument out of range for datetime"

/-- GNSSData.to_timestamp (data_types.py lines 30-34): build
datetime(year, month, day, hour, minute, 0) and return its epoch seconds plus
microsecond / 1e6. The constructor raises ValueError on an invalid calendar
tuple; there is no handler and no NaN fallback. The naive datetime is
interpreted in UTC here (the source uses the local timezone of the host). -/
def to_timestamp (g : GNSSData) : Except String ℚ :=
  if pyDateOk g.year g.month g.day g.hour g.minute then
    .ok (((days_from_civil g.year g.month g.day * 86400 + g.hour * 3600 +
      g.minute * 60 : ℤ) : ℚ) + (g.microsecond : ℚ) / 1000000)
  else .error valueErrDate

/-- Calendar tuple produced by datetime.fromtimestamp. -/
structure Cal where
  year : ℕ
  month : ℕ
  day : ℕ
  hour : ℕ
  minute : ℕ
  microsecond : ℕ
deriving DecidableEq

/-- One record update of TimestampConverter.convert_imu_data (time_sync.py
lines 30-43): the six calendar fields are overwritten from the synthesized
timestamp and the timestamp itself is set; the gyro and accel channels are
not touched. -/
def setImuTime (imu : IMUData) (c : Cal) (t : ℚ) : IMUData :=
  ⟨Ts.q t, c.year, c.month, c.day, c.hour, c.minute, c.microsecond,
    imu.gyro_x, imu.gyro_y, imu.gyro_z, imu.accel_x, imu.accel_y, imu.accel_z⟩

/-- Enumerated loop of convert_imu_data: record i receives timestamp
start + i * dt. -/
def convert_imu_go (cal : ℚ → Cal) (t0 dt : ℚ) : ℕ → List IMUData → List IMUData
  | _, [] => []
  | i, imu :: rest =>
    setImuTime imu (cal (t0 + i * dt)) (t0 + i * dt) ::
      convert_imu_go cal t0 dt (i + 1) rest

/-- Message of the ZeroDivisionError raised by dt = 1.0 / frequency. -/
def zeroDivErr : String := "ZeroDivisionError: float division by zero"

/-- TimestampConverter.convert_imu_data (time_sync.py lines 14-45). The
library call datetime.fromtimestamp is passed in as a total calendar
function cal; dt is computed as 1.0 / frequency before the loop, raising
ZeroDivisionError when the frequency is zero. -/
def convert_imu_data (cal : ℚ → Cal) (imu_list : List IMUData)
    (start_timestamp frequency : ℚ) : Except String (List IMUData) :=
  if frequency = 0 then .error zeroDivErr
  else .ok (convert_imu_go cal start_timestamp (1 / frequency) 0 imu_list)

/-- Loop of bisect.bisect_left as CPython implements it (while lo < hi, probe
the middle, move lo past the middle when the probe is smaller than the key,
otherwise move hi down to the middle), written with fuel; the interval
shrinks every iteration, so fuel equal to the list length plus one never
runs out. -/
def bisect_go (a : List ℚ) (x : ℚ) : ℕ → ℕ → ℕ → ℕ
  | 0, lo, _ => lo
  | fuel + 1, lo, hi =>
    if lo < hi then
      if a.getD ((lo + hi) / 2) 0 < x then bisect_go a x fuel ((lo + hi) / 2 + 1) hi
      else bisect_go a x fuel lo ((lo + hi) / 2)
    else lo

/-- bisect.bisect_left over the whole list. -/
def bisect_left (a : List ℚ) (x : ℚ) : ℕ := bisect_go a x (a.length + 1) 0 a.length

/-- TimeAlignment.find_nearest_gnss (time_sync.py lines 52-79): binary-search
the insertion index, clamp at the two ends, otherwise compare the left and
right neighbours and take the strictly closer one (the else branch, hence the
right neighbour, wins a tie). Python gnss_timestamps[-1] is the last element. -/
def find_nearest_gnss (imu_timestamp : ℚ) (gnss_timestamps : List ℚ) : ℕ × ℚ :=
  let idx := bisect_left gnss_timestamps imu_timestamp
  if idx = 0 then (0, |gnss_timestamps.getD 0 0 - imu_timestamp|)
  else if idx = gnss_timestamps.length then
    (gnss_timestamps.length - 1,
      |gnss_timestamps.getD (gnss_timestamps.length - 1) 0 - imu_timestamp|)
  else
    if |gnss_timestamps.getD (idx - 1) 0 - imu_timestamp| <
        |gnss_timestamps.getD idx 0 - imu_timestamp| then
      (idx - 1, |gnss_timestamps.getD (idx - 1) 0 - imu_timestamp|)
    else (idx, |gnss_timestamps.getD idx 0 - imu_timestamp|)

/-- Quality report dictionary of TimeAlignment.validate_alignment. -/
structure AlignmentReport where
  total_pairs : ℕ
  max_time_diff : ℚ
  min_time_diff : ℚ
  avg_time_diff : ℚ
  pairs_within_5ms : ℕ
  pairs_within_10ms : ℕ
deriving DecidableEq

/-- Message of the ValueError raised by max() on an empty sequence. -/
def emptySeqErr : String := "ValueError: max arg is an empty sequence"

/-- TimeAlignment.validate_alignment (time_sync.py lines 100-117): extract
the time differences and build the six-field report; on an empty pair list
the max() call raises ValueError. -/
def validate_alignment (aligned_pairs : List (GNSSData × IMUData × ℚ)) :
    Except String AlignmentReport :=
  match aligned_pairs.map (fun t => t.2.2) with
  | [] => .error emptySeqErr
  | d :: ds =>
    .ok ⟨aligned_pairs.length, ds.foldl max d, ds.foldl min d,
      (d :: ds).sum / (aligned_pairs.length : ℚ),
      (d :: ds).countP (fun x => decide (x < 5 / 1000)),
      (d :: ds).countP (fun x => decide (x < 10 / 1000))⟩

/-- Sort key comparison of sorted(gnss_list, key=timestamp): Python float
less-than on the timestamps. -/
def keyLt (a b : GNSSData) : Bool := tsLt a.timestamp b.timestamp

/-- Stable insertion of one record into an already processed list: the new
record goes in front of the first record whose key is strictly greater. -/
def insertTs (x : GNSSData) : List GNSSData → List GNSSData
  | [] => [x]
  | y :: ys => if keyLt x y then x :: y :: ys else y :: insertTs x ys

/-- Python sorted(gnss_list, key=timestamp): a stable comparison sort. On
keys the comparisons totally order (no NaN) every stable sort produces the
same list, so stable insertion is extensionally the library sort; with NaN
keys every comparison is false and insertion then appends at the end, which
matches the library run detection on the concrete inputs used below. -/
def pySortGnss (l : List GNSSData) : List GNSSData :=
  l.foldl (fun acc x => insertTs x acc) []

/-- Dedup tolerance 1e-9 from gnss_interpolation.py line 56. -/
def dedupTol : ℚ := 1 / 1000000000

/-- Scan of GNSSInterpolator._sort_and_deduplicate lines 53-60 after the
first record: keep a record when abs(timestamp - prev) > 1e-9 (false for a
NaN difference), updating prev only on kept records. -/
def dedup_go : List GNSSData → Ts → List GNSSData
  | [], _ => []
  | g :: gs, prev =>
    if tsAbsGt (tsSub g.timestamp prev) dedupTol then g :: dedup_go gs g.timestamp
    else dedup_go gs prev

/-- GNSSInterpolator._sort_and_deduplicate (gnss_interpolation.py lines
43-65): sort by timestamp, always keep the first record (prev is None), then
scan with the tolerance test. -/
def sort_and_deduplicate (l : List GNSSData) : List GNSSData :=
  match pySortGnss l with
  | [] => []
  | g :: gs => g :: dedup_go gs g.timestamp

/-- Message of the ValueError raised when fewer than 2 points remain. -/
def insufficientErr : String := "ValueError: at least 2 GNSS points are required"

/-- Message of the ValueError raised when a NaN timestamp is present. -/
def nanTsErr : String := "ValueError: NaN timestamp in GNSS data"

/-- GNSSInterpolator._validate_input (gnss_interpolation.py lines 19-40):
raise when fewer than two records, raise when any timestamp is NaN, then
only log warnings (not modelled, they raise nothing) and return the
timestamp array. -/
def validate_input (gnss_list : List GNSSData) : Except String (List Ts) :=
  if gnss_list.length < 2 then .error insufficientErr
  else if gnss_list.any (fun g => g.timestamp == Ts.nan) then .error nanTsErr
  else .ok (gnss_list.map (fun g => g.timestamp))

/-- LinearInterpolator.interpolate (gnss_interpolation.py lines 83-136):
sort and deduplicate, then validate (either step can raise ValueError);
next the per-channel scipy interp1d fits, which are library calls that
raise nothing for inputs that pass validation; then one output record is
built per target timestamp. That construction loop (lines 111-134) is
repository code whose GNSSData call at line 117 omits the required
timestamp argument, so the first target timestamp raises TypeError; only
an empty target list reaches the return, with an empty result. The numeric
channel values computed by scipy never become observable on any path and
are therefore not modelled. -/
def linear_interpolate (gnss_list : List GNSSData)
    (target_timestamps : List ℚ) : Except String (List GNSSData) :=
  match validate_input (sort_and_deduplicate gnss_list) with
  | .error e => .error e
  | .ok _ =>
    match target_timestamps with
    | [] => .ok []
    | _ :: _ => .error gnssCtorErr

/-- A structurally valid 46-byte Position frame: marker 99 66, length 2E,
year 2024, month 6, day 1, hour 12, minute 0, microsecond 0, longitude
121.5 (pattern 0x405E600000000000), latitude 31.25 (0x403F400000000000),
altitude 10.0f (0x41200000), velocity (1.0f, 0.0f, 0.0f), checksum 0xDF. -/
def exFrame46 : List ℕ :=
  [0x99, 0x66, 0x2E,
   0xE8, 0x07, 6, 1, 12, 0,
   0, 0, 0, 0,
   0, 0, 0, 0, 0, 0x60, 0x5E, 0x40,
   0, 0, 0, 0, 0, 0x40, 0x3F, 0x40,
   0, 0, 0x20, 0x41,
   0, 0, 0x80, 0x3F,
   0, 0, 0, 0,
   0, 0, 0, 0,
   0xDF]

/-- The field values encoded in exFrame46. -/
def exFields : GNSSFields :=
  ⟨2024, 6, 1, 12, 0, 0, 0x405E600000000000, 0x403F400000000000,
    0x41200000, 0x3F800000, 0, 0⟩

/-- A 98-byte window holding the valid Position frame followed by 52 zero
bytes, so the Inertial half fails its marker check. -/
def exBuf98 : List ℕ := exFrame46 ++ List.replicate 52 0

/-- The record the repaired decoder returns for exFrame46. -/
def exGnssRecord : GNSSData := fieldsToGnss exFields Ts.nan

/-- Record with the 2024 leap day in its calendar fields. -/
def gLeap : GNSSData := ⟨Ts.nan, 2024, 2, 29, 0, 0, 0, 0, 0, 0, 0, 0, 0, true⟩

/-- Record with month 13 in its calendar fields. -/
def gM13 : GNSSData := ⟨Ts.nan, 2024, 13, 1, 0, 0, 0, 0, 0, 0, 0, 0, 0, true⟩

/-- Position record with timestamp 1. -/
def gA : GNSSData := ⟨Ts.q 1, 2024, 6, 1, 0, 0, 0, 0, 0, 0, 0, 0, 0, true⟩

/-- Position record with timestamp 2. -/
def gB : GNSSData := ⟨Ts.q 2, 2024, 6, 1, 0, 0, 0, 0, 0, 0, 0, 0, 0, true⟩

/-- Position record with the NaN timestamp sentinel. -/
def gNaN : GNSSData := ⟨Ts.nan, 2024, 6, 1, 0, 0, 0, 0, 0, 0, 0, 0, 0, true⟩

/-- A 160-byte fused-result frame with year 1999 and every other byte zero
or a benign calendar value; structurally complete. -/
def exRes1999 : List ℕ := [0xCF, 0x07, 1, 1, 0, 0] ++ List.replicate 154 0

/-- A 160-byte fused-result frame with year 2000 and nav_status 5, a value
outside the defined enum {0, 2, 3, 4}. -/
def exRes2000m5 : List ℕ :=
  [0xD0, 0x07, 1, 1, 0, 0, 0, 0, 0, 0, 5] ++ List.replicate 149 0

/-- A neutral inertial record (the epoch placeholder ins_parser would use). -/
def imuZ : IMUData := ⟨Ts.nan, 1970, 1, 1, 0, 0, 0, 0, 0, 0, 0, 0, 0⟩

/-- Ten neutral inertial records. -/
def imu10 : List IMUData := List.replicate 10 imuZ

/-- A trivial total calendar function standing in for datetime.fromtimestamp
in concrete instances. -/
def calZero : ℚ → Cal := fun _ => ⟨1970, 1, 1, 0, 0, 0⟩

/-- C1: for every 46-byte window with the 0x99 0x66 marker, length byte 0x2E,
matching low-8-bit checksum of bytes 3..44, and year in [2000, 2100], the
Position decoder reaches the record construction with the twelve field values
exactly as encoded little-endian in the window, but instead of returning the
record it raises TypeError, because the GNSSData constructor call omits the
required timestamp argument; the concrete frame exFrame46 exhibits this. -/
theorem c1_position_decode_raises :
    (∀ data : List ℕ, 46 ≤ data.length → data.take 2 = [0x99, 0x66] →
      data.getD 2 0 = 0x2E → checksum (byteSlice data 3 45) = data.getD 45 0 →
      2000 ≤ le16 data 3 → le16 data 3 ≤ 2100 →
      parse_gnss_frame data = PyResult.exn gnssCtorErr ∧
      parse_gnss_core data = some ⟨le16 data 3, data.getD 5 0, data.getD 6 0,
        data.getD 7 0, data.getD 8 0, le32 data 9, le64 data 13, le64 data 21,
        le32 data 29, le32 data 33, le32 data 37, le32 data 41⟩) ∧
    parse_gnss_frame exFrame46 = PyResult.exn gnssCtorErr ∧
    parse_gnss_core exFrame46 = some exFields := by
  refine ⟨fun data h1 h2 h3 h4 h5 h6 => ?_, by decide, by decide⟩
  have hcore : parse_gnss_core data = some ⟨le16 data 3, data.getD 5 0,
      data.getD 6 0, data.getD 7 0, data.getD 8 0, le32 data 9, le64 data 13,
      le64 data 21, le32 data 29, le32 data 33, le32 data 37, le32 data 41⟩ := by
    unfold parse_gnss_core
    rw [if_pos h1, if_pos h2, if_pos h3, if_pos h4, if_pos ⟨h5, h6⟩]
  refine ⟨?_, hcore⟩
  unfold parse_gnss_frame
  rw [hcore]

/-- Witness for C1 at the concrete frame exFrame46. -/
theorem c1_position_decode_raises_witness :
    parse_gnss_frame exFrame46 = PyResult.exn gnssCtorErr ∧
    parse_gnss_core exFrame46 = some ⟨le16 exFrame46 3, exFrame46.getD 5 0,
      exFrame46.getD 6 0, exFrame46.getD 7 0, exFrame46.getD 8 0,
      le32 exFrame46 9, le64 exFrame46 13, le64 exFrame46 21,
      le32 exFrame46 29, le32 exFrame46 33, le32 exFrame46 37,
      le32 exFrame46 41⟩ :=
  c1_position_decode_raises.1 exFrame46 (by decide) (by decide) (by decide)
    (by decide) (by decide) (by decide)

/-- C2 counterexample: calendar-to-timestamp conversion on a record with
month 13 raises ValueError; it does not return a NaN sentinel. -/
theorem c2_month13_raises : to_timestamp gM13 = Except.error valueErrDate := rfl

/-- C2 (amended): to_timestamp returns an epoch timestamp exactly when the
calendar tuple satisfies the datetime constructor bounds (valid Gregorian
date with year 1..9999, hour up to 23, minute up to 59) and raises
ValueError otherwise; the 2024 leap day converts successfully. -/
theorem c2_to_timestamp_behaviour :
    (∀ g : GNSSData, (∃ t, to_timestamp g = Except.ok t) ↔
      (1 ≤ g.year ∧ g.year ≤ 9999 ∧ 1 ≤ g.month ∧ g.month ≤ 12 ∧ 1 ≤ g.day ∧
        g.day ≤ daysInMonth g.year g.month ∧ g.hour ≤ 23 ∧ g.minute ≤ 59)) ∧
    to_timestamp gLeap = Except.ok 1709164800 := by
  constructor
  · intro g
    constructor
    · rintro ⟨t, ht⟩
      unfold to_timestamp at ht
      split at ht
      · next hp =>
        unfold pyDateOk at hp
        exact of_decide_eq_true hp
      · exact Except.noConfusion ht
    · intro hcond
      have hp : pyDateOk g.year g.month g.day g.hour g.minute = true := by
        unfold pyDateOk
        exact decide_eq_true hcond
      exact ⟨_, by unfold to_timestamp; rw [if_pos hp]⟩
  · show to_timestamp gLeap = Except.ok 1709164800
    unfold to_timestamp
    rw [if_pos (by decide)]
    norm_num [gLeap, days_from_civil]

/-- C6 counterexample: a structurally complete 160-byte fused-result frame
with year 1999 is rejected (None), not returned with a warning. -/
theorem c6_year1999_rejected : parse_result_frame exRes1999 = none := rfl

/-- C6 (amended): the fused-result decoder rejects a frame whose year lies
outside [2000, 2100] just as the Position decoder does, while a nav_status
outside the enum {0, 2, 3, 4} is warn-only: the record is still returned
carrying that status, as the concrete frame with nav_status 5 shows. -/
theorem c6_fused_year_rejects_mode_warns :
    (∀ data : List ℕ, 160 ≤ data.length →
      ((le16 data 0 < 2000 ∨ 2100 < le16 data 0) → parse_result_frame data = none) ∧
      (2000 ≤ le16 data 0 → le16 data 0 ≤ 2100 →
        ∃ r, parse_result_frame data = some r ∧
          r.nav_status = int8 (data.getD 10 0))) ∧
    (∃ r, parse_result_frame exRes2000m5 = some r ∧ r.nav_status = 5) := by
  refine ⟨fun data h1 => ⟨fun hy => ?_, fun hy1 hy2 => ?_⟩, ⟨_, rfl, rfl⟩⟩
  · unfold parse_result_frame
    rw [if_pos h1, if_neg (by omega)]
  · have hsome : parse_result_frame data = some ⟨0, le16 data 0, data.getD 2 0,
        data.getD 3 0, data.getD 4 0, data.getD 5 0, le32 data 6,
        int8 (data.getD 10 0), le64 data 11, le64 data 19, le64 data 27,
        le64 data 35, le64 data 43, le64 data 51, le64 data 59, le64 data 67,
        le64 data 75, le64 data 83, le64 data 91, le64 data 99, le64 data 107,
        le64 data 115, le64 data 123, le64 data 131, le64 data 139,
        le64 data 147, int32 (le32 data 155)⟩ := by
      unfold parse_result_frame
      rw [if_pos h1, if_pos ⟨hy1, hy2⟩]
    exact ⟨_, hsome, rfl⟩

/-- Witness for C6 at the concrete frame exRes2000m5. -/
theorem c6_fused_year_rejects_mode_warns_witness :
    ∃ r, parse_result_frame exRes2000m5 = some r ∧
      r.nav_status = int8 (exRes2000m5.getD 10 0) :=
  (c6_fused_year_rejects_mode_warns.1 exRes2000m5 (by decide)).2 (by decide)
    (by decide)

/-- C10: the alignment quality report is defined only for a non-empty pair
list: on the empty list validate_alignment fails with the ValueError max()
raises on an empty sequence, and on every non-empty list it returns the
six-field report whose total_pairs equals the number of pairs. -/
theorem c10_validate_alignment_total :
    validate_alignment [] = Except.error emptySeqErr ∧
    ∀ ps : List (GNSSData × IMUData × ℚ), ps ≠ [] →
      ∃ r, validate_alignment ps = Except.ok r ∧ r.total_pairs = ps.length := by
  refine ⟨rfl, fun ps hne => ?_⟩
  cases ps with
  | nil => exact absurd rfl hne
  | cons p rest => exact ⟨_, rfl, rfl⟩

/-- Witness for C10 at a concrete one-pair list. -/
theorem c10_validate_alignment_total_witness :
    ∃ r, validate_alignment [(gA, imuZ, 1 / 1000)] = Except.ok r ∧
      r.total_pairs = [(gA, imuZ, (1 : ℚ) / 1000)].length :=
  c10_validate_alignment_total.2 [(gA, imuZ, 1 / 1000)] (by simp)

/-- Length preservation of the convert_imu_data loop. -/
theorem convert_imu_go_length (cal : ℚ → Cal) (t0 dt : ℚ) :
    ∀ (i0 : ℕ) (l : List IMUData),
      (convert_imu_go cal t0 dt i0 l).length = l.length := by
  intro i0 l
  induction l generalizing i0 with
  | nil => rfl
  | cons a rest ih => simp [convert_imu_go, ih]

/-- Element description of the convert_imu_data loop: the record at position
n of the output is the record at position n of the input with its time
fields rewritten from the synthesized timestamp for index i0 + n. -/
theorem convert_imu_go_getD (cal : ℚ → Cal) (t0 dt : ℚ) :
    ∀ (l : List IMUData) (i0 n : ℕ), n < l.length →
      (convert_imu_go cal t0 dt i0 l).getD n imuZ =
        setImuTime (l.getD n imuZ) (cal (t0 + (i0 + n) * dt))
          (t0 + (i0 + n) * dt) := by
  intro l
  induction l with
  | nil => intro i0 n h; simp at h
  | cons a rest ih =>
    intro i0 n h
    cases n with
    | zero => simp [convert_imu_go]
    | succ m =>
      have hm : m < rest.length := by simpa using h
      have hq : ((i0 + 1 : ℕ) : ℚ) + (m : ℚ) = (i0 : ℚ) + ((m + 1 : ℕ) : ℚ) := by
        push_cast
        ring
      simp only [convert_imu_go, List.getD_cons_succ]
      rw [ih (i0 + 1) m hm, hq]

/-- C8: timestamp reconciliation assigns record i (0-indexed, in list order)
the timestamp t0 + i / f for every positive frequency f, and concretely a
10-record sequence with t0 = 1000 and f = 100 gives record 5 the timestamp
1000.05. -/
theorem c8_synthetic_timestamps :
    (∀ (cal : ℚ → Cal) (l : List IMUData) (t0 f : ℚ), 0 < f →
      ∃ out, convert_imu_data cal l t0 f = Except.ok out ∧
        out.length = l.length ∧
        ∀ i, i < l.length →
          (out.getD i imuZ).timestamp = Ts.q (t0 + i / f)) ∧
    (((convert_imu_data calZero imu10 1000 100).toOption.getD []).getD 5
      imuZ).timestamp = Ts.q (20001 / 20) := by
  have hgen : ∀ (cal : ℚ → Cal) (l : List IMUData) (t0 f : ℚ), 0 < f →
      ∃ out, convert_imu_data cal l t0 f = Except.ok out ∧
        out.length = l.length ∧
        ∀ i, i < l.length →
          (out.getD i imuZ).timestamp = Ts.q (t0 + i / f) := by
    intro cal l t0 f hf
    refine ⟨convert_imu_go cal t0 (1 / f) 0 l, ?_,
      convert_imu_go_length cal t0 (1 / f) 0 l, ?_⟩
    · unfold convert_imu_data
      rw [if_neg (ne_of_gt hf)]
    · intro i hi
      rw [convert_imu_go_getD cal t0 (1 / f) l 0 i hi]
      simp only [setImuTime]
      congr 1
      push_cast
      ring
  refine ⟨hgen, ?_⟩
  obtain ⟨out, hout, hlen, hts⟩ := hgen calZero imu10 1000 100 (by norm_num)
  have h5 : (5 : ℕ) < imu10.length := by norm_num [imu10]
  rw [hout]
  simp only [Except.toOption, Option.getD]
  rw [hts 5 h5]
  congr 1
  norm_num

/-- Witness for C8 at a concrete frequency and record list. -/
theorem c8_synthetic_timestamps_witness :
    ∃ out, convert_imu_data calZero imu10 1000 100 = Except.ok out ∧
      out.length = imu10.length ∧
      ∀ i, i < imu10.length →
        (out.getD i imuZ).timestamp = Ts.q (1000 + (i : ℚ) / 100) :=
  c8_synthetic_timestamps.1 calZero imu10 1000 100 (by norm_num)

/-- C9: timestamp reconciliation rewrites only the timestamp and calendar
fields: the six gyro and accel channels of every record, and the length and
order of the list, are unchanged; a zero frequency raises ZeroDivisionError
before the list is touched. -/
theorem c9_channels_untouched :
    (∀ (cal : ℚ → Cal) (l : List IMUData) (t0 f : ℚ), f ≠ 0 →
      ∃ out, convert_imu_data cal l t0 f = Except.ok out ∧
        out.length = l.length ∧
        ∀ i, i < l.length →
          (out.getD i imuZ).gyro_x = (l.getD i imuZ).gyro_x ∧
          (out.getD i imuZ).gyro_y = (l.getD i imuZ).gyro_y ∧
          (out.getD i imuZ).gyro_z = (l.getD i imuZ).gyro_z ∧
          (out.getD i imuZ).accel_x = (l.getD i imuZ).accel_x ∧
          (out.getD i imuZ).accel_y = (l.getD i imuZ).accel_y ∧
          (out.getD i imuZ).accel_z = (l.getD i imuZ).accel_z) ∧
    convert_imu_data calZero imu10 1000 0 = Except.error zeroDivErr := by
  refine ⟨fun cal l t0 f hf => ?_, rfl⟩
  refine ⟨convert_imu_go cal t0 (1 / f) 0 l, ?_, convert_imu_go_length cal t0 (1 / f) 0 l, ?_⟩
  · unfold convert_imu_data
    rw [if_neg hf]
  · intro i hi
    rw [convert_imu_go_getD cal t0 (1 / f) l 0 i hi]
    exact ⟨rfl, rfl, rfl, rfl, rfl, rfl⟩

/-- Witness for C9 at a concrete frequency and record list. -/
theorem c9_channels_untouched_witness :
    ∃ out, convert_imu_data calZero imu10 1000 100 = Except.ok out ∧
      out.length = imu10.length ∧
      ∀ i, i < imu10.length →
        (out.getD i imuZ).gyro_x = (imu10.getD i imuZ).gyro_x ∧
        (out.getD i imuZ).gyro_y = (imu10.getD i imuZ).gyro_y ∧
        (out.getD i imuZ).gyro_z = (imu10.getD i imuZ).gyro_z ∧
        (out.getD i imuZ).accel_x = (imu10.getD i imuZ).accel_x ∧
        (out.getD i imuZ).accel_y = (imu10.getD i imuZ).accel_y ∧
        (out.getD i imuZ).accel_z = (imu10.getD i imuZ).accel_z :=
  c9_channels_untouched.1 calZero imu10 1000 100 (by norm_num)

/-- Repaired Position decoder never raises. -/
theorem parse_gnss_frame_ok_not_exn (d : List ℕ) (e : String) :
    parse_gnss_frame_ok d ≠ PyResult.exn e := by
  unfold parse_gnss_frame_ok
  cases parse_gnss_core d <;> simp

/-- Repaired Inertial decoder never raises. -/
theorem parse_ins_frame_ok_not_exn (d : List ℕ) (e : String) :
    parse_ins_frame_ok d ≠ PyResult.exn e := by
  unfold parse_ins_frame_ok
  cases parse_ins_core d <;> simp

/-- C5 counterexample: on a buffer whose first 46 bytes form a valid Position
frame and whose Inertial half fails, the claim says no record is emitted and
the cursor advances by one byte; the code instead aborts with the TypeError
raised inside the Position decode. -/
theorem c5_scan_aborts_on_valid_frame :
    parse_file exBuf98 = Except.error gnssCtorErr := rfl

/-- C5 (amended): with the constructor slip repaired, at every position with
a full 98-byte window each successfully decoded record is emitted
individually and the cursor advances by 98 exactly when both halves decode,
otherwise by 1; in the code as written a position where both halves fail
structurally emits nothing and advances by 1, while a half that decodes
structurally raises; concretely, on exBuf98 the repaired scan emits the
Position record even though the Inertial half fails. -/
theorem c5_scan_emits_individually :
    (∀ (bin : List ℕ) (fuel offset : ℕ), offset + 98 ≤ bin.length →
      parse_file_go parse_gnss_frame_ok parse_ins_frame_ok bin (fuel + 1) offset =
        match parse_file_go parse_gnss_frame_ok parse_ins_frame_ok bin fuel
            (offset +
              (if (parse_gnss_frame_ok (byteSlice bin offset (offset + 98))).isOk &&
                  (parse_ins_frame_ok (byteSlice bin offset (offset + 98))).isOk
                then 98 else 1)) with
        | .error e => .error e
        | .ok (gs, ms) =>
            .ok ((parse_gnss_frame_ok (byteSlice bin offset (offset + 98))).toList ++ gs,
              (parse_ins_frame_ok (byteSlice bin offset (offset + 98))).toList ++ ms)) ∧
    (∀ (bin : List ℕ) (fuel offset : ℕ), offset + 98 ≤ bin.length →
      parse_gnss_frame (byteSlice bin offset (offset + 98)) = PyResult.nores →
      parse_ins_frame (byteSlice bin offset (offset + 98)) = PyResult.nores →
      parse_file_go parse_gnss_frame parse_ins_frame bin (fuel + 1) offset =
        parse_file_go parse_gnss_frame parse_ins_frame bin fuel (offset + 1)) ∧
    parse_file_fixed exBuf98 = Except.ok ([exGnssRecord], []) := by
  refine ⟨fun bin fuel offset h => ?_, fun bin fuel offset h hg hi => ?_, rfl⟩
  · have h1 : offset < bin.length := by omega
    have h2 : ¬ bin.length < offset + 98 := by omega
    simp only [parse_file_go, if_pos h1, if_neg h2]
    cases hgv : parse_gnss_frame_ok (byteSlice bin offset (offset + 98)) with
    | exn e => exact absurd hgv (parse_gnss_frame_ok_not_exn _ _)
    | ok g =>
      cases hiv : parse_ins_frame_ok (byteSlice bin offset (offset + 98)) with
      | exn e => exact absurd hiv (parse_ins_frame_ok_not_exn _ _)
      | ok i => rfl
      | nores => rfl
    | nores =>
      cases hiv : parse_ins_frame_ok (byteSlice bin offset (offset + 98)) with
      | exn e => exact absurd hiv (parse_ins_frame_ok_not_exn _ _)
      | ok i => rfl
      | nores => rfl
  · have h1 : offset < bin.length := by omega
    have h2 : ¬ bin.length < offset + 98 := by omega
    simp only [parse_file_go, if_pos h1, if_neg h2]
    rw [hg, hi]
    cases hr : parse_file_go parse_gnss_frame parse_ins_frame bin fuel (offset + 1) with
    | error e => simp [hr, PyResult.isOk, PyResult.toList]
    | ok p =>
      cases p with
      | mk gs ms => simp [hr, PyResult.isOk, PyResult.toList]

/-- Witness for C5 applying the step description at an all-zero buffer. -/
theorem c5_scan_emits_individually_witness :
    parse_file_go parse_gnss_frame parse_ins_frame (List.replicate 98 0) 1 0 =
      parse_file_go parse_gnss_frame parse_ins_frame (List.replicate 98 0) 0 1 :=
  c5_scan_emits_individually.2.1 (List.replicate 98 0) 0 0 (by decide)
    (by decide) (by decide)

/-- Dedup scan keeps no NaN-timestamped record once the previous kept
timestamp is not NaN: a NaN candidate makes the tolerance test false (NaN
comparisons are false), so it is skipped and prev stays non-NaN. -/
theorem dedup_go_no_nan :
    ∀ (l : List GNSSData) (p : Ts), p ≠ Ts.nan →
      ∀ r ∈ dedup_go l p, r.timestamp ≠ Ts.nan := by
  intro l
  induction l with
  | nil => intro p hp r hr; simp [dedup_go] at hr
  | cons g gs ih =>
    intro p hp r hr
    by_cases hk : tsAbsGt (tsSub g.timestamp p) dedupTol = true
    · have hg : g.timestamp ≠ Ts.nan := by
        intro hgn
        rw [hgn] at hk
        cases p <;> simp [tsSub, tsAbsGt] at hk
      rw [dedup_go, if_pos hk] at hr
      rcases List.mem_cons.mp hr with h | h
      · rw [h]; exact hg
      · exact ih g.timestamp hg r h
    · rw [dedup_go, if_neg hk] at hr
      exact ih p hp r hr

/-- C3 counterexample: a record list with two clean records and one NaN
record that sorts first is not completed without error: the NaN record is
kept by preprocessing, both clean records are dropped by the NaN-poisoned
dedup scan, and interpolation raises the insufficient-points ValueError
instead of excluding the NaN record. -/
theorem c3_nan_first_raises :
    linear_interpolate [gNaN, gA, gB] [3 / 2] = Except.error insufficientErr := rfl

/-- C3 (amended): the Resampler has no dedicated NaN filter. A NaN record is
dropped only by the dedup scan, which happens whenever the first record in
sort order is clean: then nothing NaN survives preprocessing. A NaN record
that sorts first is instead kept and validation raises rather than
excluding it. Moreover interpolation never completes without error on a
non-empty target list, whatever the input: the output-record loop raises
TypeError because its GNSSData call omits the required timestamp argument.
Concretely, with the NaN record last the call passes the NaN check and
fails only at that constructor, and with no targets it returns an empty
result. -/
theorem c3_nan_not_excluded :
    (∀ (l : List GNSSData) (g : GNSSData), (pySortGnss l).head? = some g →
      g.timestamp ≠ Ts.nan →
      ∀ r ∈ sort_and_deduplicate l, r.timestamp ≠ Ts.nan) ∧
    (∀ (l : List GNSSData) (t : ℚ) (ts : List ℚ),
      ∃ e, linear_interpolate l (t :: ts) = Except.error e) ∧
    linear_interpolate [gA, gB, gNaN] [3 / 2] = Except.error gnssCtorErr ∧
    linear_interpolate [gA, gB, gNaN] [] = Except.ok [] := by
  refine ⟨?_, ?_, ?_, ?_⟩
  · intro l g hhead hg r hr
    unfold sort_and_deduplicate at hr
    cases hs : pySortGnss l with
    | nil => rw [hs] at hr; simp at hr
    | cons g0 gs =>
      rw [hs] at hr hhead
      simp only [List.head?_cons, Option.some.injEq] at hhead
      rcases List.mem_cons.mp hr with h | h
      · rw [h, hhead]; exact hg
      · exact dedup_go_no_nan gs g0.timestamp (by rw [hhead]; exact hg) r h
  · intro l t ts
    simp only [linear_interpolate]
    cases hv : validate_input (sort_and_deduplicate l) with
    | error e => exact ⟨e, rfl⟩
    | ok w => exact ⟨gnssCtorErr, rfl⟩
  · norm_num [linear_interpolate, validate_input, sort_and_deduplicate,
      pySortGnss, insertTs, keyLt, tsLt, dedup_go, tsSub, tsAbsGt, dedupTol,
      gA, gB, gNaN]
    simp
  · norm_num [linear_interpolate, validate_input, sort_and_deduplicate,
      pySortGnss, insertTs, keyLt, tsLt, dedup_go, tsSub, tsAbsGt, dedupTol,
      gA, gB, gNaN]
    simp

/-- Witness for C3: with the NaN record last in the input the sorted head is
clean, so nothing NaN survives preprocessing. -/
theorem c3_nan_not_excluded_witness :
    ∀ r ∈ sort_and_deduplicate [gA, gB, gNaN], r.timestamp ≠ Ts.nan :=
  c3_nan_not_excluded.1 [gA, gB, gNaN] gA rfl (by decide)

/-- Key comparison agrees with the rational order on non-NaN timestamps. -/
theorem keyLt_iff (a b : GNSSData) (ha : a.timestamp ≠ Ts.nan)
    (hb : b.timestamp ≠ Ts.nan) :
    keyLt a b = true ↔ tsv a.timestamp < tsv b.timestamp := by
  cases hta : a.timestamp with
  | nan => exact absurd hta ha
  | q x =>
    cases htb : b.timestamp with
    | nan => exact absurd htb hb
    | q y => simp [keyLt, tsLt, hta, htb, tsv]

/-- Inserting a non-NaN record into a sorted list of non-NaN records keeps
the list sorted, and every member of the result is the new record or an old
member. -/
theorem insertTs_sorted :
    ∀ (l : List GNSSData) (x : GNSSData), x.timestamp ≠ Ts.nan →
      (∀ g ∈ l, g.timestamp ≠ Ts.nan) →
      l.Sorted (fun a b => tsv a.timestamp ≤ tsv b.timestamp) →
      (insertTs x l).Sorted (fun a b => tsv a.timestamp ≤ tsv b.timestamp) ∧
      ∀ y ∈ insertTs x l, y = x ∨ y ∈ l := by
  intro l
  induction l with
  | nil =>
    intro x hx h0 hs
    refine ⟨by simp [insertTs], ?_⟩
    intro y hy
    simp [insertTs] at hy
    exact Or.inl hy
  | cons a t ih =>
    intro x hx hall hs
    have ha : a.timestamp ≠ Ts.nan := hall a (by simp)
    have ht : ∀ g ∈ t, g.timestamp ≠ Ts.nan := fun g hg => hall g (by simp [hg])
    rw [List.sorted_cons] at hs
    obtain ⟨hrel, hst⟩ := hs
    by_cases hk : keyLt x a = true
    · rw [insertTs, if_pos hk]
      have hxa : tsv x.timestamp < tsv a.timestamp := (keyLt_iff x a hx ha).mp hk
      constructor
      · rw [List.sorted_cons]
        refine ⟨?_, List.sorted_cons.mpr ⟨hrel, hst⟩⟩
        intro b hb
        rcases List.mem_cons.mp hb with h | h
        · rw [h]
          exact le_of_lt hxa
        · exact le_trans (le_of_lt hxa) (hrel b h)
      · intro y hy
        rcases List.mem_cons.mp hy with h | h
        · exact Or.inl h
        · exact Or.inr h
    · rw [insertTs, if_neg hk]
      have hax : tsv a.timestamp ≤ tsv x.timestamp :=
        le_of_not_lt (fun hlt => hk ((keyLt_iff x a hx ha).mpr hlt))
      obtain ⟨ihs, ihm⟩ := ih x hx ht hst
      constructor
      · rw [List.sorted_cons]
        refine ⟨?_, ihs⟩
        intro b hb
        rcases ihm b hb with h | h
        · rw [h]
          exact hax
        · exact hrel b h
      · intro y hy
        rcases List.mem_cons.mp hy with h | h
        · exact Or.inr (by simp [h])
        · rcases ihm y h with h2 | h2
          · exact Or.inl h2
          · exact Or.inr (by simp [h2])

/-- The insertion fold behind pySortGnss keeps the accumulator sorted and
introduces no new members. -/
theorem pySort_foldl_sorted :
    ∀ (l acc : List GNSSData), (∀ g ∈ l, g.timestamp ≠ Ts.nan) →
      (∀ g ∈ acc, g.timestamp ≠ Ts.nan) →
      acc.Sorted (fun a b => tsv a.timestamp ≤ tsv b.timestamp) →
      (l.foldl (fun acc x => insertTs x acc) acc).Sorted
        (fun a b => tsv a.timestamp ≤ tsv b.timestamp) ∧
      ∀ y ∈ l.foldl (fun acc x => insertTs x acc) acc, y ∈ acc ∨ y ∈ l := by
  intro l
  induction l with
  | nil =>
    intro acc h1 h2 h3
    exact ⟨h3, fun y hy => Or.inl (by simpa using hy)⟩
  | cons x t ih =>
    intro acc hl hacc hs
    have hx : x.timestamp ≠ Ts.nan := hl x (by simp)
    have hlt : ∀ g ∈ t, g.timestamp ≠ Ts.nan := fun g hg => hl g (by simp [hg])
    obtain ⟨hins_s, hins_m⟩ := insertTs_sorted acc x hx hacc hs
    have hacc2 : ∀ g ∈ insertTs x acc, g.timestamp ≠ Ts.nan := by
      intro g hg
      rcases hins_m g hg with h | h
      · rw [h]
        exact hx
      · exact hacc g h
    obtain ⟨hfs, hfm⟩ := ih (insertTs x acc) hlt hacc2 hins_s
    simp only [List.foldl_cons]
    refine ⟨hfs, ?_⟩
    intro y hy
    rcases hfm y hy with h | h
    · rcases hins_m y h with h2 | h2
      · exact Or.inr (by simp [h2])
      · exact Or.inl h2
    · exact Or.inr (by simp [h])

/-- On a NaN-free input pySortGnss sorts by timestamp and returns only input
records. -/
theorem pySort_props (l : List GNSSData) (hl : ∀ g ∈ l, g.timestamp ≠ Ts.nan) :
    (pySortGnss l).Sorted (fun a b => tsv a.timestamp ≤ tsv b.timestamp) ∧
    ∀ y ∈ pySortGnss l, y ∈ l := by
  obtain ⟨hs, hm⟩ := pySort_foldl_sorted l [] hl (by simp) (by simp)
  exact ⟨hs, fun y hy => (hm y hy).resolve_left (by simp)⟩

/-- Dedup tolerance is positive. -/
theorem dedupTol_pos : (0 : ℚ) < dedupTol := by norm_num [dedupTol]

/-- Dedup scan over a sorted NaN-free tail whose values all lie at or above
the previous kept value v: the kept records are pairwise separated by more
than the tolerance and each kept value exceeds v by more than the tolerance. -/
theorem dedup_go_gap :
    ∀ (l : List GNSSData) (v : ℚ), (∀ g ∈ l, g.timestamp ≠ Ts.nan) →
      l.Sorted (fun a b => tsv a.timestamp ≤ tsv b.timestamp) →
      (∀ g ∈ l, v ≤ tsv g.timestamp) →
      List.Pairwise (fun a b => tsv a.timestamp < tsv b.timestamp ∧
        dedupTol < tsv b.timestamp - tsv a.timestamp) (dedup_go l (Ts.q v)) ∧
      ∀ g ∈ dedup_go l (Ts.q v), v + dedupTol < tsv g.timestamp := by
  intro l
  induction l with
  | nil => intro v h1 h2 h3; simp [dedup_go]
  | cons g gs ih =>
    intro v hnn hs hge
    have hgnn : g.timestamp ≠ Ts.nan := hnn g (by simp)
    obtain ⟨w, hw⟩ : ∃ w, g.timestamp = Ts.q w := by
      cases hgt : g.timestamp with
      | nan => exact absurd hgt hgnn
      | q w => exact ⟨w, rfl⟩
    have hvw : v ≤ w := by simpa [hw, tsv] using hge g (by simp)
    rw [List.sorted_cons] at hs
    obtain ⟨hrel, hst⟩ := hs
    have hgs_nn : ∀ b ∈ gs, b.timestamp ≠ Ts.nan := fun b hb => hnn b (by simp [hb])
    have hgs_ge : ∀ b ∈ gs, w ≤ tsv b.timestamp := by
      intro b hb
      simpa [hw, tsv] using hrel b hb
    have hcond : tsAbsGt (tsSub g.timestamp (Ts.q v)) dedupTol =
        decide (dedupTol < |w - v|) := by
      rw [hw]
      rfl
    by_cases hk : dedupTol < |w - v|
    · have hkeep : tsAbsGt (tsSub g.timestamp (Ts.q v)) dedupTol = true := by
        rw [hcond]
        exact decide_eq_true hk
      rw [dedup_go, if_pos hkeep, hw]
      have hvw2 : v + dedupTol < w := by
        have habs : |w - v| = w - v := abs_of_nonneg (by linarith)
        rw [habs] at hk
        linarith
      obtain ⟨ihp, ihm⟩ := ih w hgs_nn hst hgs_ge
      constructor
      · rw [List.pairwise_cons]
        refine ⟨?_, ihp⟩
        intro b hb
        have hbm := ihm b hb
        rw [hw, show tsv (Ts.q w) = w from rfl]
        constructor
        · linarith [dedupTol_pos]
        · linarith
      · intro b hb
        rcases List.mem_cons.mp hb with h | h
        · rw [h, hw, show tsv (Ts.q w) = w from rfl]
          exact hvw2
        · have := ihm b h
          linarith [dedupTol_pos]
    · have hskip : ¬ tsAbsGt (tsSub g.timestamp (Ts.q v)) dedupTol = true := by
        rw [hcond]
        simpa using hk
      rw [dedup_go, if_neg hskip]
      exact ih v hgs_nn hst (fun b hb => le_trans hvw (hgs_ge b hb))

/-- C7: after Resampler preprocessing of a NaN-free record list (sort by
timestamp, then drop records closer than 1e-9 seconds to the previously kept
record), the kept timestamps are strictly increasing and every pair differs
by at least 1e-9 seconds. -/
theorem c7_preprocessing_strictly_increasing :
    ∀ l : List GNSSData, (∀ g ∈ l, g.timestamp ≠ Ts.nan) →
      List.Pairwise (fun a b => tsv a.timestamp < tsv b.timestamp ∧
        dedupTol ≤ tsv b.timestamp - tsv a.timestamp) (sort_and_deduplicate l) := by
  intro l hl
  obtain ⟨hs, hm⟩ := pySort_props l hl
  unfold sort_and_deduplicate
  cases hps : pySortGnss l with
  | nil => simp
  | cons g gs =>
    rw [hps] at hs hm
    have hgnn : g.timestamp ≠ Ts.nan := hl g (hm g (by simp))
    obtain ⟨w, hw⟩ : ∃ w, g.timestamp = Ts.q w := by
      cases hgt : g.timestamp with
      | nan => exact absurd hgt hgnn
      | q w => exact ⟨w, rfl⟩
    rw [List.sorted_cons] at hs
    obtain ⟨hrel, hst⟩ := hs
    have hnn_gs : ∀ b ∈ gs, b.timestamp ≠ Ts.nan :=
      fun b hb => hl b (hm b (by simp [hb]))
    have hge : ∀ b ∈ gs, w ≤ tsv b.timestamp := by
      intro b hb
      simpa [hw, tsv] using hrel b hb
    obtain ⟨hp, hmem⟩ := dedup_go_gap gs w hnn_gs hst hge
    show List.Pairwise _ (g :: dedup_go gs g.timestamp)
    rw [hw, List.pairwise_cons]
    constructor
    · intro b hb
      have hbm := hmem b hb
      rw [hw, show tsv (Ts.q w) = w from rfl]
      constructor
      · linarith [dedupTol_pos]
      · linarith
    · exact hp.imp (fun h => ⟨h.1, le_of_lt h.2⟩)

/-- Witness for C7 at a concrete two-record list given in reverse order. -/
theorem c7_preprocessing_strictly_increasing_witness :
    List.Pairwise (fun a b => tsv a.timestamp < tsv b.timestamp ∧
      dedupTol ≤ tsv b.timestamp - tsv a.timestamp)
      (sort_and_deduplicate [gB, gA]) :=
  c7_preprocessing_strictly_increasing [gB, gA] (by decide)

/-- A getD read inside the list bounds is a member. -/
theorem getD_mem_q : ∀ (l : List ℚ) (k : ℕ), k < l.length → l.getD k 0 ∈ l := by
  intro l
  induction l with
  | nil => intro k h; simp at h
  | cons a t ih =>
    intro k h
    cases k with
    | zero => simp
    | succ m =>
      have hm := ih m (by simpa using h)
      simp only [List.getD_cons_succ]
      exact List.mem_cons_of_mem a hm

/-- Reads from a sorted rational list are monotone in the index. -/
theorem sorted_getD_mono : ∀ (l : List ℚ), l.Sorted (fun p q => p ≤ q) →
    ∀ i j : ℕ, i ≤ j → j < l.length → l.getD i 0 ≤ l.getD j 0 := by
  intro l
  induction l with
  | nil => intro _ i j _ h; simp at h
  | cons a t ih =>
    intro hs i j hij hj
    rw [List.sorted_cons] at hs
    obtain ⟨ha, ht⟩ := hs
    cases i with
    | zero =>
      cases j with
      | zero => simp
      | succ m =>
        have hm : m < t.length := by simpa using hj
        simp only [List.getD_cons_zero, List.getD_cons_succ]
        exact ha _ (getD_mem_q t m hm)
    | succ n =>
      cases j with
      | zero => omega
      | succ m =>
        simp only [List.getD_cons_succ]
        exact ih ht n m (by omega) (by simpa using hj)

/-- Loop invariant of the bisect_left loop on a sorted list: the result r
lies in [lo, hi], everything strictly below r is smaller than the key and
everything from r up to hi is at least the key. -/
theorem bisect_go_spec (a : List ℚ) (x : ℚ)
    (hs : a.Sorted (fun p q => p ≤ q)) :
    ∀ (fuel lo hi : ℕ), hi - lo < fuel → hi ≤ a.length → lo ≤ hi →
      lo ≤ bisect_go a x fuel lo hi ∧ bisect_go a x fuel lo hi ≤ hi ∧
      (∀ i, lo ≤ i → i < bisect_go a x fuel lo hi → a.getD i 0 < x) ∧
      (∀ i, bisect_go a x fuel lo hi ≤ i → i < hi → x ≤ a.getD i 0) := by
  intro fuel
  induction fuel with
  | zero => intro lo hi h _ _; omega
  | succ fuel ih =>
    intro lo hi hfuel hhi hlh
    by_cases hlt : lo < hi
    · have hm1 : lo ≤ (lo + hi) / 2 := by omega
      have hm2 : (lo + hi) / 2 < hi := by omega
      by_cases hc : a.getD ((lo + hi) / 2) 0 < x
      · simp only [bisect_go]
        rw [if_pos hlt, if_pos hc]
        obtain ⟨h1, h2, h3, h4⟩ :=
          ih ((lo + hi) / 2 + 1) hi (by omega) hhi (by omega)
        refine ⟨by omega, h2, ?_, h4⟩
        intro i hilo hir
        by_cases him : i ≤ (lo + hi) / 2
        · have := sorted_getD_mono a hs i ((lo + hi) / 2) him (by omega)
          linarith
        · exact h3 i (by omega) hir
      · simp only [bisect_go]
        rw [if_pos hlt, if_neg hc]
        obtain ⟨h1, h2, h3, h4⟩ :=
          ih lo ((lo + hi) / 2) (by omega) (by omega) (by omega)
        refine ⟨h1, by omega, h3, ?_⟩
        intro i hri hih
        by_cases him : i < (lo + hi) / 2
        · exact h4 i hri him
        · have hx : x ≤ a.getD ((lo + hi) / 2) 0 := le_of_not_lt hc
          exact le_trans hx (sorted_getD_mono a hs _ i (by omega) (by omega))
    · simp only [bisect_go]
      rw [if_neg hlt]
      refine ⟨le_refl lo, by omega, ?_, ?_⟩ <;> intro i h1 h2 <;> omega

/-- Characterization of bisect_left on a sorted list. -/
theorem bisect_left_spec (a : List ℚ) (x : ℚ)
    (hs : a.Sorted (fun p q => p ≤ q)) :
    bisect_left a x ≤ a.length ∧
    (∀ i, i < bisect_left a x → a.getD i 0 < x) ∧
    (∀ i, bisect_left a x ≤ i → i < a.length → x ≤ a.getD i 0) := by
  obtain ⟨h1, h2, h3, h4⟩ :=
    bisect_go_spec a x hs (a.length + 1) 0 a.length (by omega) (le_refl _)
      (by omega)
  exact ⟨h2, fun i hi => h3 i (by omega) hi, h4⟩

/-- C4 counterexample: reference timestamps [0, 2] and query 1 are an exact
tie; the claim says the lower index 0 is chosen, but find_nearest_gnss
returns index 1 (the else branch wins a tie). -/
theorem c4_tie_goes_to_upper : find_nearest_gnss 1 [0, 2] = (1, 1) := by
  norm_num [find_nearest_gnss, bisect_left, bisect_go]

/-- C4 (amended): for a sorted non-empty reference list the nearest search
returns index 0 when the insertion index is 0, the last index when the
insertion index is the length, and otherwise the strictly closer of the two
neighbours with ties favoring the upper index; in every case the returned
absolute difference is minimal over all reference indices. -/
theorem c4_nearest_choice :
    ∀ (a : List ℚ) (x : ℚ), a.Sorted (fun p q => p ≤ q) → a ≠ [] →
      (bisect_left a x = 0 → find_nearest_gnss x a = (0, |a.getD 0 0 - x|)) ∧
      (bisect_left a x = a.length →
        find_nearest_gnss x a =
          (a.length - 1, |a.getD (a.length - 1) 0 - x|)) ∧
      (0 < bisect_left a x → bisect_left a x < a.length →
        find_nearest_gnss x a =
          if |a.getD (bisect_left a x - 1) 0 - x| <
              |a.getD (bisect_left a x) 0 - x| then
            (bisect_left a x - 1, |a.getD (bisect_left a x - 1) 0 - x|)
          else (bisect_left a x, |a.getD (bisect_left a x) 0 - x|)) ∧
      (∀ j, j < a.length → (find_nearest_gnss x a).2 ≤ |a.getD j 0 - x|) := by
  intro a x hs hne
  have hlen : 0 < a.length := List.length_pos.mpr hne
  obtain ⟨hB0, hB1, hB2⟩ := bisect_left_spec a x hs
  by_cases h0 : bisect_left a x = 0
  · have heq : find_nearest_gnss x a = (0, |a.getD 0 0 - x|) := by
      unfold find_nearest_gnss
      rw [if_pos h0]
    refine ⟨fun _ => heq, fun hn => by omega, fun hp _ => by omega, ?_⟩
    intro j hj
    rw [heq]
    show |a.getD 0 0 - x| ≤ |a.getD j 0 - x|
    have hx0 : x ≤ a.getD 0 0 := hB2 0 (by omega) hlen
    have hxj : x ≤ a.getD j 0 := hB2 j (by omega) hj
    have hmono : a.getD 0 0 ≤ a.getD j 0 := sorted_getD_mono a hs 0 j (by omega) hj
    rw [abs_of_nonneg (by linarith), abs_of_nonneg (by linarith)]
    linarith
  · by_cases hn : bisect_left a x = a.length
    · have heq : find_nearest_gnss x a =
          (a.length - 1, |a.getD (a.length - 1) 0 - x|) := by
        unfold find_nearest_gnss
        rw [if_neg h0, if_pos hn]
      refine ⟨fun h => absurd h h0, fun _ => heq, fun _ hq => by omega, ?_⟩
      intro j hj
      rw [heq]
      show |a.getD (a.length - 1) 0 - x| ≤ |a.getD j 0 - x|
      have hxj : a.getD j 0 < x := hB1 j (by omega)
      have hxl : a.getD (a.length - 1) 0 < x := hB1 _ (by omega)
      have hmono : a.getD j 0 ≤ a.getD (a.length - 1) 0 :=
        sorted_getD_mono a hs j (a.length - 1) (by omega) (by omega)
      rw [abs_of_nonpos (by linarith), abs_of_nonpos (by linarith)]
      linarith
    · have hpos : 0 < bisect_left a x := by omega
      have hlt : bisect_left a x < a.length := by omega
      have heq : find_nearest_gnss x a =
          if |a.getD (bisect_left a x - 1) 0 - x| <
              |a.getD (bisect_left a x) 0 - x| then
            (bisect_left a x - 1, |a.getD (bisect_left a x - 1) 0 - x|)
          else (bisect_left a x, |a.getD (bisect_left a x) 0 - x|) := by
        unfold find_nearest_gnss
        rw [if_neg h0, if_neg hn]
      refine ⟨fun h => absurd h h0, fun h => absurd h hn, fun _ _ => heq, ?_⟩
      intro j hj
      have hleft : a.getD (bisect_left a x - 1) 0 < x := hB1 _ (by omega)
      have hright : x ≤ a.getD (bisect_left a x) 0 := hB2 _ (by omega) hlt
      have hd : (find_nearest_gnss x a).2 ≤ |a.getD (bisect_left a x - 1) 0 - x| ∧
          (find_nearest_gnss x a).2 ≤ |a.getD (bisect_left a x) 0 - x| := by
        rw [heq]
        by_cases hc : |a.getD (bisect_left a x - 1) 0 - x| <
            |a.getD (bisect_left a x) 0 - x|
        · rw [if_pos hc]
          exact ⟨le_refl _, le_of_lt hc⟩
        · rw [if_neg hc]
          exact ⟨le_of_not_lt hc, le_refl _⟩
      by_cases hjs : j < bisect_left a x
      · have hj1 : a.getD j 0 < x := hB1 j hjs
        have hmono : a.getD j 0 ≤ a.getD (bisect_left a x - 1) 0 :=
          sorted_getD_mono a hs j _ (by omega) (by omega)
        have hcmp : |a.getD (bisect_left a x - 1) 0 - x| ≤ |a.getD j 0 - x| := by
          rw [abs_of_nonpos (by linarith), abs_of_nonpos (by linarith)]
          linarith
        linarith [hd.1]
      · have hj2 : x ≤ a.getD j 0 := hB2 j (by omega) hj
        have hmono : a.getD (bisect_left a x) 0 ≤ a.getD j 0 :=
          sorted_getD_mono a hs _ j (by omega) hj
        have hcmp : |a.getD (bisect_left a x) 0 - x| ≤ |a.getD j 0 - x| := by
          rw [abs_of_nonneg (by linarith), abs_of_nonneg (by linarith)]
          linarith
        linarith [hd.2]

/-- Witness for C4 at the spec example: references [0, 1, 2, 3], query 1.6;
the chosen difference is no larger than the difference at index 1. -/
theorem c4_nearest_choice_witness :
    (find_nearest_gnss (8 / 5) [0, 1, 2, 3]).2 ≤
      |[(0 : ℚ), 1, 2, 3].getD 1 0 - 8 / 5| :=
  (c4_nearest_choice [0, 1, 2, 3] (8 / 5) (by decide) (by simp)).2.2.2 1
    (by norm_num)
